import Mathlib

/-!
Shallow embedding of the BMEcat → ETIM xChange converter (src/converter.py)
and proofs about its specified behaviour.

Conventions of the embedding:
* Python `None` becomes `Option.none`; fallible operations return `Except`.
* Python floats are modelled as exact rationals (`ℚ`); the only float
  behaviour the claims depend on is decimal formatting, which is modelled
  by rounding the exact value to 4 decimal places with ties to even, the
  behaviour of C `printf`-style `%.4f` on the exact value of the operand
  (a binary double is never an exact tie at 4 decimal places, so the tie
  rule is unobservable on the source's actual inputs).
* JSON-compatible Python trees (dict / list / scalars) become the `Json`
  inductive type below; dicts keep insertion order, as Python dicts do.
-/

namespace Converter

/-! ## JSON trees and the empty-value pruner (`clean_json`, converter.py lines 1129-1159) -/

/-- A JSON-compatible Python value: `None`, a string, a number, a boolean,
a list, or a dict (insertion-ordered key/value entries). -/
inductive Json where
  | null
  | str (s : String)
  | num (q : ℚ)
  | bool (b : Bool)
  | arr (items : List Json)
  | obj (entries : List (String × Json))

/-- Python's emptiness test used by `clean_json`:
`cleaned is None or cleaned == "" or cleaned == [] or cleaned == {}`.
Note that in Python `False != ""`, `False != []`, `False != {}` and likewise
for `0`, so booleans and numbers are never empty. -/
def jsonEmpty : Json → Bool
  | .null => true
  | .str s => s == ""
  | .num _ => false
  | .bool _ => false
  | .arr items => items.isEmpty
  | .obj entries => entries.isEmpty

mutual

/-- `clean_json` (converter.py 1129-1159): recursively remove empty values.
Primitives are returned unchanged; dict entries and list items whose cleaned
value is empty are dropped, preserving order. -/
def clean_json : Json → Json
  | .null => .null
  | .str s => .str s
  | .num q => .num q
  | .bool b => .bool b
  | .obj entries => .obj (cleanEntries entries)
  | .arr items => .arr (cleanItems items)

/-- The dict branch of `clean_json`: keep only entries whose cleaned value
is non-empty, in order. -/
def cleanEntries : List (String × Json) → List (String × Json)
  | [] => []
  | (k, v) :: rest =>
    let c := clean_json v
    if jsonEmpty c then cleanEntries rest else (k, c) :: cleanEntries rest

/-- The list branch of `clean_json`: keep only items whose cleaned value
is non-empty, in order. -/
def cleanItems : List Json → List Json
  | [] => []
  | x :: rest =>
    let c := clean_json x
    if jsonEmpty c then cleanItems rest else c :: cleanItems rest

end

/-! ## Python string primitives, modelled over the character list of the
string so that every operation is a plain structural computation. -/

/-- Python `str.strip()`: remove leading and trailing whitespace. -/
def pyStrip (s : String) : String :=
  String.mk (((s.data.dropWhile Char.isWhitespace).reverse.dropWhile Char.isWhitespace).reverse)

/-- Python `str.lower()`. -/
def pyLower (s : String) : String :=
  String.mk (s.data.map Char.toLower)

/-- Python `str.upper()`. -/
def pyUpper (s : String) : String :=
  String.mk (s.data.map Char.toUpper)

/-- Python `str.startswith(p)`. -/
def pyStartsWith (s p : String) : Bool :=
  s.data.take p.data.length == p.data

/-- Python `len(s)` (number of characters). -/
def pyLen (s : String) : Nat :=
  s.data.length

/-- Python `str.rstrip(c)`: remove every trailing occurrence of `c`. -/
def pyRstrip (s : String) (c : Char) : String :=
  String.mk ((s.data.reverse.dropWhile (fun x => x == c)).reverse)

/-! ## Numeric formatting (`clean_number`, converter.py 558-576) and the
feature value classifier (`process_feature_values`, converter.py 578-625) -/

/-- Value of a list of decimal digit characters, most significant first
(`[] ↦ 0`; callers require at least one digit overall). -/
def digitsVal (cs : List Char) : Nat :=
  cs.foldl (fun acc c => acc * 10 + (c.toNat - 48)) 0

/-- Python `float(s)` restricted to plain decimal literals: optional sign,
then digits with at most one decimal point, at least one digit in total
(`"3"`, `"-2.5"`, `".5"`, `"7."` parse; `"EV000001"`, `""`, `"true"` do not).
Exponents, `inf`/`nan` and digit-group underscores are outside the fragment
the converter's catalogs use and are not modelled. -/
def parseFloat (s : String) : Option ℚ :=
  let body := fun (cs : List Char) =>
    let ip := cs.takeWhile (fun c => c ≠ '.')
    let rest := cs.drop ip.length
    match rest with
    | [] =>
      if ip ≠ [] ∧ ip.all Char.isDigit then
        some (mkRat (digitsVal ip) 1)
      else none
    | _ :: fp =>
      if (ip ≠ [] ∨ fp ≠ []) ∧ ip.all Char.isDigit ∧ fp.all Char.isDigit then
        some (mkRat (digitsVal ip * 10 ^ fp.length + digitsVal fp) (10 ^ fp.length))
      else none
  match (pyStrip s).data with
  | '-' :: cs => (body cs).map (fun q => -q)
  | '+' :: cs => body cs
  | cs => body cs

/-- Python `int(s)` on a stripped string: optional sign then decimal digits;
anything else raises `ValueError` (here: `none`). -/
def parseInt (s : String) : Option Int :=
  let body := fun (cs : List Char) =>
    if cs ≠ [] ∧ cs.all Char.isDigit then some (digitsVal cs) else none
  match s.data with
  | '-' :: cs => (body cs).map (fun n => -(n : Int))
  | '+' :: cs => (body cs).map (fun n => (n : Int))
  | cs => (body cs).map (fun n => (n : Int))

/-- Round `q * 10⁴` to the nearest integer, ties to even: the value printed
by `f"{q:.4f}"` is this integer over `10⁴`.  (A binary double is never an
exact tie at 4 decimals, so the tie rule is unobservable on real inputs.)
Computed on the numerator/denominator: `q * 10⁴ = n/d` with `d > 0`,
floor is `n.fdiv d` and the fractional part compares to `1/2` as `2r ≶ d`. -/
def round4 (q : ℚ) : Int :=
  let n := q.num * 10000
  let d : Int := (q.den : Int)
  let f := Int.fdiv n d
  let r := n - f * d
  if 2 * r < d then f
  else if d < 2 * r then f + 1
  else if f % 2 = 0 then f else f + 1

/-- Left-pad the decimal representation of `n` with zeros to 4 digits
(the fraction field of `f"{q:.4f}"`). -/
def pad4 (n : Nat) : String :=
  let s := toString n
  String.mk (List.replicate (4 - s.length) '0') ++ s

/-- The string `f"{q:.4f}"`: sign, integer part, `.`, 4 fraction digits. -/
def format4 (q : ℚ) : String :=
  let n := round4 q
  let m := n.natAbs
  (if n < 0 then "-" else "") ++ toString (m / 10000) ++ "." ++ pad4 (m % 10000)

/-- `clean_number` (converter.py 558-576): an integral value is rendered as a
plain integer string (`str(int(v))`); otherwise the value is rendered with
`f"{v:.4f}"` and trailing `'0'`s and then a trailing `'.'` are stripped
(Python `.rstrip('0').rstrip('.')`).  The `try/except` around `float(value)`
is unreachable here because every call site passes a number. -/
def clean_number (value : ℚ) : String :=
  if value.den = 1 then
    toString value.num
  else
    pyRstrip (pyRstrip (format4 value) '0') '.'

/-- The classification emitted for one feature: each field mirrors one key
the Python dict `result` may receive. A key never set is `none`. -/
structure FeatureResult where
  EtimValueCode : Option String := none
  EtimValueRangeLower : Option String := none
  EtimValueRangeUpper : Option String := none
  EtimValueNumeric : Option String := none
  EtimValueLogical : Option Bool := none
deriving DecidableEq, Repr

/-- `process_feature_values` (converter.py 578-625) applied to the list of
stripped `FVALUE` texts (an element without text contributes `""`).
1. every value starting with `"EV"` of length exactly 8 is collected; if any
   exist the first becomes `EtimValueCode`;
2. independently, every value is parsed as a float, parse failures ignored;
   exactly two parses give a range (`min`/`max`), exactly one gives
   `EtimValueNumeric`, any other count gives nothing;
3. independently, values equal (lowercased) to `"true"`/`"false"` are
   collected and the first, if any, becomes `EtimValueLogical`. -/
def process_feature_values (fvalues : List String) : FeatureResult :=
  let ev_codes := fvalues.filter (fun val => pyStartsWith val "EV" && pyLen val == 8)
  let r1 : FeatureResult :=
    match ev_codes with
    | [] => {}
    | c :: _ => { EtimValueCode := some c }
  let numeric_values := fvalues.filterMap parseFloat
  let r2 :=
    match numeric_values with
    | [a, b] => { r1 with
        EtimValueRangeLower := some (clean_number (min a b)),
        EtimValueRangeUpper := some (clean_number (max a b)) }
    | [a] => { r1 with EtimValueNumeric := some (clean_number a) }
    | _ => r1
  let bool_values := fvalues.filterMap (fun val =>
    if pyLower val == "true" then some true
    else if pyLower val == "false" then some false
    else none)
  match bool_values with
  | [] => r2
  | b :: _ => { r2 with EtimValueLogical := some b }

/-! ## XML trees and the field extractor (`get_val` converter.py 47-76,
`get_val_attr` converter.py 78-128)

An element has a (already namespace-stripped) tag, attributes, an optional
text and a list of children, in document order.  Tail text between siblings
is not used by any of the converter's queries and is not modelled. -/

/-- An XML element node. -/
inductive Xml where
  | elem (tag : String) (attrs : List (String × String)) (text : Option String) (children : List Xml)

/-- The element's tag. -/
def Xml.tag : Xml → String
  | .elem t _ _ _ => t

/-- The element's attribute list. -/
def Xml.attrs : Xml → List (String × String)
  | .elem _ a _ _ => a

/-- The element's own text (`.text` in lxml), if any. -/
def Xml.text : Xml → Option String
  | .elem _ _ tx _ => tx

/-- The element's children, in document order. -/
def Xml.children : Xml → List Xml
  | .elem _ _ _ ch => ch

mutual

/-- First element with the given tag among an element's descendants
(`.//tag`, excluding the element itself), in document order: a child is
visited before its own subtree, a subtree before the next sibling. -/
def findFirstE (tag : String) : Xml → Option Xml
  | .elem t a tx ch =>
    if t = tag then some (.elem t a tx ch) else findFirstL tag ch

/-- `findFirstE` over a list of sibling subtrees, in order. -/
def findFirstL (tag : String) : List Xml → Option Xml
  | [] => none
  | c :: rest =>
    match findFirstE tag c with
    | some e => some e
    | none => findFirstL tag rest

end

/-- lxml `root.findtext(".//tag")`: text of the first matching descendant;
a matching element without text yields `""`; no match yields `None`. -/
def findtextDesc (tag : String) (root : Xml) : Option String :=
  match findFirstL tag root.children with
  | some e => some (e.text.getD "")
  | none => none

/-- The requested coercion type of `get_val` / `get_val_attr`
(Python `val_type ∈ {str, bool, int}`). -/
inductive VType where
  | tstr
  | tbool
  | tint
deriving DecidableEq

/-- A Python value as returned by the extractors: `None`, a string,
a boolean, or an integer. -/
inductive PyVal where
  | vnone
  | vstr (s : String)
  | vbool (b : Bool)
  | vint (n : Int)
deriving DecidableEq, Repr

/-- The shared tail of `get_val`/`get_val_attr` once a raw text was found:
strip; a stripped text starting with `"-"` is `None`; then coerce per
`val_type` — `bool` compares the lowercased text with `"true"`, `int` maps
`""` to `None` and otherwise parses, raising (`Except.error`) on failure;
`str` returns the stripped text. -/
def coerceVal (raw : String) (t : VType) : Except String PyVal :=
  let element := pyStrip raw
  if pyStartsWith element "-" then .ok .vnone
  else
    match t with
    | .tbool => .ok (.vbool (pyLower element == "true"))
    | .tint =>
      if element == "" then .ok .vnone
      else
        match parseInt element with
        | some n => .ok (.vint n)
        | none => .error ("invalid literal for int() with base 10: " ++ element)
    | .tstr => .ok (.vstr element)

/-- `get_val` (converter.py 47-76): text of the first matching descendant,
stripped and coerced; `None` when no element matches. -/
def get_val (target_field : String) (XML_root : Xml) (val_type : VType) :
    Except String PyVal :=
  match findtextDesc target_field XML_root with
  | none => .ok .vnone
  | some raw => coerceVal raw val_type

/-- Does the element satisfy the attribute conditions of `get_val_attr`'s
XPath query: every `@attr='value'` filter holds, and with `no_lang` set the
element carries no `lang` attribute at all. -/
def matchesAttrFilters (e : Xml) (attributes : List (String × String))
    (no_lang : Bool) : Bool :=
  (!no_lang || (e.attrs.lookup "lang").isNone)
    && attributes.all (fun av => e.attrs.lookup av.1 == some av.2)

mutual

/-- Text nodes selected by `.//tag[filters]/text()` from a subtree, in
document order: an element contributes its text (when present) if it
matches; its descendants are searched regardless. -/
def xpathTextsE (tag : String) (attributes : List (String × String))
    (no_lang : Bool) : Xml → List String
  | .elem t a tx ch =>
    (if t = tag ∧ (matchesAttrFilters (.elem t a tx ch) attributes no_lang) = true then
      match tx with
      | some s => [s]
      | none => []
    else []) ++ xpathTextsL tag attributes no_lang ch

/-- `xpathTextsE` over a list of sibling subtrees, in order. -/
def xpathTextsL (tag : String) (attributes : List (String × String))
    (no_lang : Bool) : List Xml → List String
  | [] => []
  | c :: rest =>
    xpathTextsE tag attributes no_lang c ++ xpathTextsL tag attributes no_lang rest

end

/-- `get_val_attr` (converter.py 78-128): first text node matched by the
attribute-filtered deep query, stripped and coerced exactly as `get_val`;
`None` when nothing matches. -/
def get_val_attr (target_field : String) (XML_root : Xml) (val_type : VType)
    (attributes : List (String × String)) (no_lang : Bool) :
    Except String PyVal :=
  match xpathTextsL target_field attributes no_lang XML_root.children with
  | [] => .ok .vnone
  | raw :: _ => coerceVal raw val_type

/-- `get_val` specialized to `val_type=str`, the shape used throughout the
assembler for plain text fields; this path never raises. -/
def getValS (target_field : String) (XML_root : Xml) : Option String :=
  match findtextDesc target_field XML_root with
  | none => none
  | some raw =>
    let element := pyStrip raw
    if pyStartsWith element "-" then none else some element

/-- Python `a or b` on optional strings: `a` unless it is `None` or `""`. -/
def pyOrOpt (a b : Option String) : Option String :=
  match a with
  | some s => if s == "" then b else some s
  | none => b

/-- Python `a or d` with a string default: `a` unless `None` or `""`. -/
def pyOrDefault (a : Option String) (d : String) : String :=
  match a with
  | some s => if s == "" then d else s
  | none => d

/-- The `CatalogueValidityStart` expression (converter.py 145):
`get_val("DATE", HEADER) or get_val("UDX.EDXF.VALID_FROM", CATALOG)
or "1971-08-15"`. -/
def catalogueValidityStart (HEADER CATALOG : Xml) : String :=
  pyOrDefault (pyOrOpt (getValS "DATE" HEADER) (getValS "UDX.EDXF.VALID_FROM" CATALOG))
    "1971-08-15"

/-! ## Language code resolver (`convert_to_language_region_code`,
converter.py 155-271) -/

/-- The fixed ISO-639-2 → language-region table (converter.py 170-252),
in source order; bibliographic and terminological duplicates both appear. -/
def iso_to_lang_region : List (String × String) := [
  ("deu", "de-DE"), ("ger", "de-DE"), ("eng", "en-GB"),
  ("nld", "nl-NL"), ("dut", "nl-NL"), ("swe", "sv-SE"),
  ("nor", "no-NO"), ("dan", "da-DK"), ("isl", "is-IS"), ("ice", "is-IS"),
  ("fra", "fr-FR"), ("fre", "fr-FR"), ("ita", "it-IT"),
  ("spa", "es-ES"), ("por", "pt-PT"), ("ron", "ro-RO"), ("rum", "ro-RO"),
  ("rus", "ru-RU"), ("pol", "pl-PL"), ("ces", "cs-CZ"), ("cze", "cs-CZ"),
  ("slk", "sk-SK"), ("slo", "sk-SK"), ("ukr", "uk-UA"), ("bul", "bg-BG"),
  ("jpn", "ja-JP"), ("zho", "zh-CN"), ("chi", "zh-CN"), ("kor", "ko-KR"),
  ("tha", "th-TH"), ("vie", "vi-VN"),
  ("ell", "el-GR"), ("gre", "el-GR"), ("hun", "hu-HU"),
  ("fin", "fi-FI"), ("tur", "tr-TR"),
  ("ara", "ar-SA"), ("heb", "he-IL"), ("fas", "fa-IR"), ("per", "fa-IR"),
  ("hin", "hi-IN"), ("ben", "bn-BD"), ("tam", "ta-IN"),
  ("swa", "sw-KE"), ("ind", "id-ID"), ("msa", "ms-MY"), ("may", "ms-MY"),
  ("hye", "hy-AM"), ("arm", "hy-AM"), ("kat", "ka-GE"), ("geo", "ka-GE"),
  ("eus", "eu-ES"), ("baq", "eu-ES"), ("slv", "sl-SI"),
  ("mri", "mi-NZ"), ("mao", "mi-NZ"), ("mya", "my-MM"), ("bur", "my-MM"),
  ("mkd", "mk-MK"), ("mac", "mk-MK"), ("cym", "cy-GB"), ("wel", "cy-GB"),
  ("alb", "sq-AL"), ("sqi", "sq-AL")]

/-- `convert_to_language_region_code` (converter.py 155-271): `None` for an
absent code; otherwise strip and lowercase, then either look the code up or
raise `ValueError` (`Except.error`) for a code not in the table. -/
def convert_to_language_region_code (iso_code : Option String) :
    Except String (Option String) :=
  match iso_code with
  | none => .ok none
  | some code =>
    let c := pyLower (pyStrip code)
    match iso_to_lang_region.lookup c with
    | some tag => .ok (some tag)
    | none => .error ("Unsupported ISO 639-2 code: " ++ c)

/-! ## Attachment type mapping (`map_attachment_type`, converter.py 318-421)
and its call sites (converter.py 629, 801, 823, 1043) -/

/-- `ATTACHMENT_CODE_MAPPING` (converter.py 328-413), in source order. -/
def ATTACHMENT_CODE_MAPPING : List (String × String) := [
  ("MD01", "ATX015"), ("MD02", "ATX018"), ("MD20", "ATX018"),
  ("MD23", "ATX018"), ("MD24", "ATX018"), ("MD25", "ATX018"),
  ("MD26", "ATX018"), ("MD27", "ATX018"), ("MD28", "ATX018"),
  ("MD29", "ATX018"), ("MD30", "ATX018"), ("MD47", "ATX018"),
  ("MD48", "ATX018"), ("MD59", "ATX018"), ("MD65", "ATX018"),
  ("MD03", "ATX019"), ("MD07", "ATX003"), ("MD19", "ATX003"),
  ("MD22", "ATX003"), ("MD32", "ATX003"), ("MD40", "ATX003"),
  ("MD63", "ATX003"),
  ("MD05", "ATX007"), ("MD06", "ATX012"), ("MD13", "ATX006"),
  ("MD49", "ATX008"), ("MD51", "ATX005"), ("MD52", "ATX004"),
  ("MD53", "ATX004"), ("MD54", "ATX006"), ("MD55", "ATX004"),
  ("MD56", "ATX021"),
  ("MD08", "ATX001"), ("MD09", "ATX001"), ("MD31", "ATX001"),
  ("MD33", "ATX001"), ("MD42", "ATX001"), ("MD50", "ATX001"),
  ("MD10", "ATX010"), ("MD12", "ATX011"), ("MD15", "ATX010"),
  ("MD16", "ATX010"), ("MD34", "ATX010"), ("MD60", "ATX011"),
  ("MD61", "ATX010"), ("MD64", "ATX011"),
  ("MD14", "ATX016"), ("MD21", "ATX016"), ("MD38", "ATX016"),
  ("MD17", "ATX014"), ("MD18", "ATX014"), ("MD39", "ATX020"),
  ("MD45", "ATX020"), ("MD46", "ATX020"), ("MD57", "ATX020"),
  ("MD58", "ATX020"),
  ("MD37", "ATX002"), ("MD41", "ATX017"), ("MD62", "ATX017"),
  ("MD11", "ATX004"), ("MD35", "ATX004"), ("MD43", "ATX004"),
  ("MD44", "ATX004"),
  ("MD04", "ATX099"), ("MD99", "ATX099")]

/-- `map_attachment_type` (converter.py 318-421): `None` in, `None` out;
otherwise uppercase + strip the code and look it up, `None` when the code
is not in the table (`dict.get(key, None)`). -/
def map_attachment_type (md_code : Option String) : Option String :=
  match md_code with
  | none => none
  | some md => ATTACHMENT_CODE_MAPPING.lookup (pyStrip (pyUpper md))

/-- The attachment-type expression at every attachment call site
(converter.py 629, 801, 823, 1043): `map_attachment_type(code) or "ATX099"`. -/
def attachmentTypeAtCallSite (md_code : Option String) : String :=
  pyOrDefault (map_attachment_type md_code) "ATX099"

/-! ## Supplier block and the product loop (converter.py 308-315, 646,
651-1117)

The assembler builds one `Supplier` dict from the header (Product list
empty), appends it to `xChange["Supplier"]` once, and then appends every
assembled product to `xChange["Supplier"][0]["Product"]` in source order.
The per-product assembly itself is abstracted as a function argument; the
claim under proof is purely about the list structure around it. -/

/-- The `Supplier` dict (converter.py 308-315), with the supplier
attachments abstracted as `A` and the product records abstracted as `P`. -/
structure SupplierRec (A P : Type) where
  SupplierName : Option String
  SupplierIdGln : Option String
  SupplierIdDuns : Option String
  SupplierVatNo : Option String
  SupplierAttachments : List A
  Product : List P

/-- Lines 308-315: the supplier block built from the header;
`SupplierAttachments` is filled by the header MIME loop (627-644) before
line 646, so it is passed in here; `Product` starts empty. -/
def initSupplier (A P : Type) (HEADER : Xml) (atts : List A) : SupplierRec A P :=
  { SupplierName := getValS "SUPPLIER_NAME" HEADER
    SupplierIdGln :=
      match get_val_attr "SUPPLIER_ID" HEADER .tstr [("type", "gln")] false with
      | .ok (.vstr s) => some s
      | _ => none
    SupplierIdDuns :=
      match get_val_attr "SUPPLIER_ID" HEADER .tstr [("type", "duns")] false with
      | .ok (.vstr s) => some s
      | _ => none
    SupplierVatNo := getValS "VAT_ID" HEADER
    SupplierAttachments := atts
    Product := [] }

/-- Line 1117: `xChange["Supplier"][0]["Product"].append(Product)` — append
one product to the first supplier of the list.  (The list is never empty
when this runs; on an empty list the Python would raise `IndexError`.) -/
def appendProductFirst {A P : Type} (sups : List (SupplierRec A P)) (p : P) :
    List (SupplierRec A P) :=
  match sups with
  | [] => []
  | s :: rest => { s with Product := s.Product ++ [p] } :: rest

/-- Lines 646 and 651-1117: `xChange["Supplier"]` starts as the singleton of
the header supplier, then the product loop appends each assembled product
record to `Supplier[0]`, in catalog source order. -/
def assembleSupplierList {A P : Type} (HEADER : Xml) (atts : List A)
    (catalogProducts : List Xml) (assembleProduct : Xml → P) :
    List (SupplierRec A P) :=
  catalogProducts.foldl
    (fun sups prodElem => appendProductFirst sups (assembleProduct prodElem))
    [initSupplier A P HEADER atts]

end Converter

namespace Converter

mutual

/-- Cleaning an already-cleaned tree changes nothing. -/
theorem clean_json_idem : (t : Json) → clean_json (clean_json t) = clean_json t
  | .null => rfl
  | .str _ => rfl
  | .num _ => rfl
  | .bool _ => rfl
  | .obj entries => by
      simp only [clean_json]
      rw [cleanEntries_idem entries]
  | .arr items => by
      simp only [clean_json]
      rw [cleanItems_idem items]

/-- Cleaning already-cleaned dict entries changes nothing. -/
theorem cleanEntries_idem : (es : List (String × Json)) →
    cleanEntries (cleanEntries es) = cleanEntries es
  | [] => rfl
  | (k, v) :: rest => by
      by_cases h : jsonEmpty (clean_json v)
      · simp only [cleanEntries, h, if_true]
        exact cleanEntries_idem rest
      · simp only [cleanEntries, h, if_false, clean_json_idem v]
        rw [cleanEntries_idem rest]

/-- Cleaning already-cleaned list items changes nothing. -/
theorem cleanItems_idem : (xs : List Json) →
    cleanItems (cleanItems xs) = cleanItems xs
  | [] => rfl
  | x :: rest => by
      by_cases h : jsonEmpty (clean_json x)
      · simp only [cleanItems, h, if_true]
        exact cleanItems_idem rest
      · simp only [cleanItems, h, if_false, clean_json_idem x]
        rw [cleanItems_idem rest]

end

/-- A list item whose cleaned value is non-empty survives the pruning of
any list containing it. -/
theorem cleanItems_mem_of (xs : List Json) (x : Json)
    (hmem : x ∈ xs) (hne : jsonEmpty (clean_json x) = false) :
    clean_json x ∈ cleanItems xs := by
  induction xs with
  | nil => cases hmem
  | cons y ys ih =>
    rcases List.mem_cons.mp hmem with rfl | hmem
    · simp [cleanItems, hne]
    · by_cases hy : jsonEmpty (clean_json y) = true
      · simpa [cleanItems, hy] using ih hmem
      · simp only [cleanItems, Bool.not_eq_true] at hy ⊢
        rw [hy]
        simp only [Bool.false_eq_true, if_false, List.mem_cons]
        exact Or.inr (ih hmem)

/-- A dict entry whose cleaned value is non-empty survives the pruning of
any dict containing it. -/
theorem cleanEntries_mem_of (es : List (String × Json)) (k : String) (v : Json)
    (hmem : (k, v) ∈ es) (hne : jsonEmpty (clean_json v) = false) :
    (k, clean_json v) ∈ cleanEntries es := by
  induction es with
  | nil => cases hmem
  | cons e rest ih =>
    obtain ⟨k1, v1⟩ := e
    rcases List.mem_cons.mp hmem with heq | hmem
    · injection heq with h1 h2
      subst h1
      subst h2
      simp [cleanEntries, hne]
    · by_cases h1 : jsonEmpty (clean_json v1) = true
      · simpa [cleanEntries, h1] using ih hmem
      · simp only [cleanEntries, Bool.not_eq_true] at h1 ⊢
        rw [h1]
        simp only [Bool.false_eq_true, if_false, List.mem_cons]
        exact Or.inr (ih hmem)

/-- Every field of the classification result, expressed directly in terms
of the input value list. -/
theorem process_feature_values_eq (fv : List String) :
    process_feature_values fv =
      { EtimValueCode :=
          (fv.filter (fun val => pyStartsWith val "EV" && pyLen val == 8)).head?
        EtimValueRangeLower :=
          match fv.filterMap parseFloat with
          | [a, b] => some (clean_number (min a b))
          | _ => none
        EtimValueRangeUpper :=
          match fv.filterMap parseFloat with
          | [a, b] => some (clean_number (max a b))
          | _ => none
        EtimValueNumeric :=
          match fv.filterMap parseFloat with
          | [a] => some (clean_number a)
          | _ => none
        EtimValueLogical :=
          (fv.filterMap (fun val =>
            if pyLower val == "true" then some true
            else if pyLower val == "false" then some false
            else none)).head? } := by
  simp only [process_feature_values]
  rcases fv.filter (fun val => pyStartsWith val "EV" && pyLen val == 8) with _ | ⟨c, cs⟩ <;>
    rcases fv.filterMap parseFloat with _ | ⟨a, _ | ⟨b, _ | ⟨x, xs⟩⟩⟩ <;>
    rcases fv.filterMap (fun val =>
      if pyLower val == "true" then some true
      else if pyLower val == "false" then some false
      else none) with _ | ⟨bv, bvs⟩ <;>
    rfl

/-- The product loop over a singleton supplier list: folding the appends
starting from `[s]` extends `s.Product` by the assembled products, in
order. -/
theorem foldl_appendProductFirst {A P : Type} (assembleProduct : Xml → P) :
    ∀ (ps : List Xml) (s : SupplierRec A P),
    ps.foldl (fun sups prodElem => appendProductFirst sups (assembleProduct prodElem)) [s] =
      [{ s with Product := s.Product ++ ps.map assembleProduct }] := by
  intro ps
  induction ps with
  | nil => intro s; simp [appendProductFirst]
  | cons p rest ih =>
    intro s
    rw [List.foldl_cons]
    have hacc : appendProductFirst [s] (assembleProduct p) =
        [{ s with Product := s.Product ++ [assembleProduct p] }] := rfl
    rw [hacc, ih]
    simp

/-- A fallback with a non-empty default is never the empty string. -/
theorem pyOrDefault_ne_empty (o : Option String) (d : String) (hd : d ≠ "") :
    pyOrDefault o d ≠ "" := by
  rcases o with _ | s
  · simpa [pyOrDefault] using hd
  · simp only [pyOrDefault]
    by_cases h : (s == "") = true
    · rw [if_pos h]; exact hd
    · rw [if_neg h]
      intro hs
      rw [hs] at h
      exact h (by decide)

/-! ## The claims -/

/-- Claim C1, counterexample: on the value list `["EV000001", "5"]` the
classifier emits the coded value AND the numeric value `"5"` — numeric
classification is not suppressed by the presence of an EV code, contrary to
the claim that the result "contains only a coded value and never a numeric
value". -/
theorem claim_C1_counterexample :
    (process_feature_values ["EV000001", "5"]).EtimValueCode = some "EV000001" ∧
    (process_feature_values ["EV000001", "5"]).EtimValueNumeric = some "5" :=
  ⟨by decide, by decide⟩

/-- Claim C1, amended: if the raw value list contains values starting with
`"EV"` of length exactly 8, the first of them is emitted as the coded value —
but numeric (and boolean) classification still proceeds independently over
the same list; in particular `["EV000001", "5"]` yields both the coded value
and the numeric value `"5"`. -/
theorem claim_C1_amended :
    (∀ fvalues : List String,
      fvalues.filter (fun val => pyStartsWith val "EV" && pyLen val == 8) ≠ [] →
      (process_feature_values fvalues).EtimValueCode =
        (fvalues.filter (fun val => pyStartsWith val "EV" && pyLen val == 8)).head?) ∧
    (process_feature_values ["EV000001", "5"]).EtimValueNumeric = some "5" := by
  constructor
  · intro fv _
    rw [process_feature_values_eq]
  · decide

/-- Claim C1, witness: the amended theorem applied to `["EV000001", "5"]`. -/
theorem claim_C1_witness :
    ["EV000001", "5"].filter (fun val => pyStartsWith val "EV" && pyLen val == 8) ≠ [] ∧
    (process_feature_values ["EV000001", "5"]).EtimValueCode =
      (["EV000001", "5"].filter (fun val => pyStartsWith val "EV" && pyLen val == 8)).head? :=
  ⟨by decide, claim_C1_amended.1 ["EV000001", "5"] (by decide)⟩

/-- Claim C2, counterexample: `clean_number` ROUNDS to 4 decimal places
(Python `f"{x:.4f}"`), it does not truncate: on 2.123456 it produces
`"2.1235"`, not the `"2.1234"` the claim requires. -/
theorem claim_C2_counterexample :
    clean_number (mkRat 2123456 1000000) = "2.1235" ∧
    clean_number (mkRat 2123456 1000000) ≠ "2.1234" :=
  ⟨by decide, by decide⟩

/-- Claim C2, amended: a number with no fractional part is rendered as a
plain integer string; otherwise the number is rendered by ROUNDING to 4
decimal places and then stripping trailing zeros and a trailing decimal
point: `format(2.0) = "2"`, `format(2.5) = "2.5"`,
`format(2.123456) = "2.1235"`. -/
theorem claim_C2_amended :
    (∀ q : ℚ, q.den = 1 → clean_number q = toString q.num) ∧
    clean_number (mkRat 2 1) = "2" ∧
    clean_number (mkRat 5 2) = "2.5" ∧
    clean_number (mkRat 2123456 1000000) = "2.1235" := by
  refine ⟨fun q h => ?_, by decide, by decide, by decide⟩
  simp [clean_number, h]

/-- Claim C2, witness: the integral branch of the amended theorem at 7. -/
theorem claim_C2_witness :
    (mkRat 7 1).den = 1 ∧ clean_number (mkRat 7 1) = toString (mkRat 7 1).num :=
  ⟨by decide, claim_C2_amended.1 (mkRat 7 1) (by decide)⟩

/-- Claim C3: exactly two parsing values give a range from the formatted
minimum to the formatted maximum (hence independent of source order);
exactly one parsing value gives a single numeric value; any other count
gives no numeric classification. -/
theorem claim_C3 : ∀ fvalues : List String,
    (∀ a b : ℚ, fvalues.filterMap parseFloat = [a, b] →
      (process_feature_values fvalues).EtimValueRangeLower =
        some (clean_number (min a b)) ∧
      (process_feature_values fvalues).EtimValueRangeUpper =
        some (clean_number (max a b))) ∧
    (∀ a : ℚ, fvalues.filterMap parseFloat = [a] →
      (process_feature_values fvalues).EtimValueNumeric = some (clean_number a)) ∧
    ((fvalues.filterMap parseFloat).length ≠ 1 →
      (fvalues.filterMap parseFloat).length ≠ 2 →
      (process_feature_values fvalues).EtimValueRangeLower = none ∧
      (process_feature_values fvalues).EtimValueRangeUpper = none ∧
      (process_feature_values fvalues).EtimValueNumeric = none) := by
  intro fv
  refine ⟨fun a b h => ?_, fun a h => ?_, fun h1 h2 => ?_⟩
  · rw [process_feature_values_eq, h]
    exact ⟨rfl, rfl⟩
  · rw [process_feature_values_eq, h]
  · rcases hn : fv.filterMap parseFloat with _ | ⟨a, _ | ⟨b, _ | ⟨x, xs⟩⟩⟩
    · rw [process_feature_values_eq, hn]
      exact ⟨rfl, rfl, rfl⟩
    · rw [hn] at h1
      simp at h1
    · rw [hn] at h2
      simp at h2
    · rw [process_feature_values_eq, hn]
      exact ⟨rfl, rfl, rfl⟩

/-- Claim C3, witness: the unordered list `["7", "3"]` yields the range
with lower bound `min 7 3` and upper bound `max 7 3`. -/
theorem claim_C3_witness :
    ["7", "3"].filterMap parseFloat = [(7 : ℚ), 3] ∧
    ((process_feature_values ["7", "3"]).EtimValueRangeLower =
      some (clean_number (min (7 : ℚ) 3)) ∧
    (process_feature_values ["7", "3"]).EtimValueRangeUpper =
      some (clean_number (max (7 : ℚ) 3))) :=
  ⟨by decide, (claim_C3 ["7", "3"]).1 7 3 (by decide)⟩

/-- Claim C4: the empty-value pruner is idempotent — pruning a pruned tree
returns it unchanged, for every JSON-compatible tree. -/
theorem claim_C4 : ∀ x : Json, clean_json (clean_json x) = clean_json x :=
  clean_json_idem

/-- Claim C5: the language resolver returns absent for an absent code; for
every input whose stripped, lowercased form is in the fixed table it
deterministically returns that table tag (so both `"deu"` and `"ger"` give
`"de-DE"`); for every other non-absent input it fails with an
"Unsupported ISO 639-2 code" error and never returns a value. -/
theorem claim_C5 :
    convert_to_language_region_code none = .ok none ∧
    (∀ s tag, iso_to_lang_region.lookup (pyLower (pyStrip s)) = some tag →
      convert_to_language_region_code (some s) = .ok (some tag)) ∧
    convert_to_language_region_code (some "deu") = .ok (some "de-DE") ∧
    convert_to_language_region_code (some "ger") = .ok (some "de-DE") ∧
    (∀ s, iso_to_lang_region.lookup (pyLower (pyStrip s)) = none →
      convert_to_language_region_code (some s) =
        .error ("Unsupported ISO 639-2 code: " ++ pyLower (pyStrip s))) := by
  refine ⟨rfl, fun s tag h => ?_, rfl, rfl, fun s h => ?_⟩
  · simp only [convert_to_language_region_code]
    rw [h]
  · simp only [convert_to_language_region_code]
    rw [h]

/-- Claim C5, witness: a supported code (stripped, case-folded) resolves to
its tag, an unsupported code fails with the error. -/
theorem claim_C5_witness :
    iso_to_lang_region.lookup (pyLower (pyStrip " ENG ")) = some "en-GB" ∧
    convert_to_language_region_code (some " ENG ") = .ok (some "en-GB") ∧
    iso_to_lang_region.lookup (pyLower (pyStrip "xyz")) = none ∧
    convert_to_language_region_code (some "xyz") =
      .error ("Unsupported ISO 639-2 code: " ++ pyLower (pyStrip "xyz")) :=
  ⟨by decide, claim_C5.2.1 " ENG " "en-GB" (by decide), by decide,
    claim_C5.2.2.2.2 "xyz" (by decide)⟩

/-- Claim C6: the attachment-type table itself returns absent for absent or
unmapped MIME codes, and the call-site expression
`map_attachment_type(code) or "ATX099"` then substitutes the generic
fallback, so an unmapped code ends up as `AttachmentType = "ATX099"`. -/
theorem claim_C6 :
    map_attachment_type none = none ∧
    (∀ c, ATTACHMENT_CODE_MAPPING.lookup (pyStrip (pyUpper c)) = none →
      map_attachment_type (some c) = none) ∧
    (∀ o, map_attachment_type o = none → attachmentTypeAtCallSite o = "ATX099") := by
  refine ⟨rfl, fun c h => ?_, fun o h => ?_⟩
  · simp only [map_attachment_type]
    exact h
  · simp only [attachmentTypeAtCallSite]
    rw [h]
    rfl

/-- Claim C6, witness: the unmapped code `"MD77"` maps to absent in the
table and to `"ATX099"` at the call site. -/
theorem claim_C6_witness :
    ATTACHMENT_CODE_MAPPING.lookup (pyStrip (pyUpper "MD77")) = none ∧
    map_attachment_type (some "MD77") = none ∧
    attachmentTypeAtCallSite (some "MD77") = "ATX099" :=
  ⟨by decide, claim_C6.2.1 "MD77" (by decide),
    claim_C6.2.2 (some "MD77") (claim_C6.2.1 "MD77" (by decide))⟩

/-- Claim C7: for both extractor operations, an element whose trimmed text
begins with `"-"` yields absent — no value and no error — for every
requested coercion type. -/
theorem claim_C7 :
    (∀ (root : Xml) (field : String) (t : VType) (s : String),
      findtextDesc field root = some s →
      pyStartsWith (pyStrip s) "-" = true →
      get_val field root t = .ok .vnone) ∧
    (∀ (root : Xml) (field : String) (t : VType)
      (attributes : List (String × String)) (no_lang : Bool)
      (s : String) (rest : List String),
      xpathTextsL field attributes no_lang root.children = s :: rest →
      pyStartsWith (pyStrip s) "-" = true →
      get_val_attr field root t attributes no_lang = .ok .vnone) := by
  constructor
  · intro root field t s h hdash
    simp [get_val, h, coerceVal, hdash]
  · intro root field t attributes no_lang s rest h hdash
    simp [get_val_attr, h, coerceVal, hdash]

/-- Claim C7, witness: a `F` element with text `" -1 "` is extracted as
absent by both operations even under integer coercion. -/
theorem claim_C7_witness :
    findtextDesc "F" (Xml.elem "R" [] none [Xml.elem "F" [] (some " -1 ") []]) =
      some " -1 " ∧
    pyStartsWith (pyStrip " -1 ") "-" = true ∧
    get_val "F" (Xml.elem "R" [] none [Xml.elem "F" [] (some " -1 ") []]) .tint =
      .ok .vnone ∧
    xpathTextsL "F" [] false
      (Xml.elem "R" [] none [Xml.elem "F" [] (some " -1 ") []]).children = [" -1 "] ∧
    get_val_attr "F" (Xml.elem "R" [] none [Xml.elem "F" [] (some " -1 ") []])
      .tint [] false = .ok .vnone :=
  ⟨by decide, by decide,
    claim_C7.1 (Xml.elem "R" [] none [Xml.elem "F" [] (some " -1 ") []]) "F" .tint
      " -1 " (by decide) (by decide),
    by decide,
    claim_C7.2 (Xml.elem "R" [] none [Xml.elem "F" [] (some " -1 ") []]) "F" .tint
      [] false " -1 " [] (by decide) (by decide)⟩

/-- Claim C8: when neither the header `DATE` nor the catalog-level
`UDX.EDXF.VALID_FROM` yields a (non-empty) value, `CatalogueValidityStart`
is the hard-coded `"1971-08-15"`; and for every input it is a non-empty
string, so it is never absent in the assembled document. -/
theorem claim_C8 :
    (∀ HEADER CATALOG : Xml,
      (getValS "DATE" HEADER = none ∨ getValS "DATE" HEADER = some "") →
      (getValS "UDX.EDXF.VALID_FROM" CATALOG = none ∨
        getValS "UDX.EDXF.VALID_FROM" CATALOG = some "") →
      catalogueValidityStart HEADER CATALOG = "1971-08-15") ∧
    (∀ HEADER CATALOG : Xml, catalogueValidityStart HEADER CATALOG ≠ "") := by
  constructor
  · intro H C h1 h2
    rcases h1 with h1 | h1 <;> rcases h2 with h2 | h2 <;>
      simp [catalogueValidityStart, pyOrOpt, pyOrDefault, h1, h2]
  · intro H C
    exact pyOrDefault_ne_empty _ _ (by decide)

/-- Claim C8, witness: an empty header and catalog produce the hard-coded
fallback, which is non-empty. -/
theorem claim_C8_witness :
    (getValS "DATE" (Xml.elem "HEADER" [] none []) = none ∨
      getValS "DATE" (Xml.elem "HEADER" [] none []) = some "") ∧
    catalogueValidityStart (Xml.elem "HEADER" [] none [])
      (Xml.elem "CATALOG" [] none []) = "1971-08-15" ∧
    catalogueValidityStart (Xml.elem "HEADER" [] none [])
      (Xml.elem "CATALOG" [] none []) ≠ "" :=
  ⟨Or.inl (by decide),
    (claim_C8.1 (Xml.elem "HEADER" [] none []) (Xml.elem "CATALOG" [] none [])
      (Or.inl (by decide)) (Or.inl (by decide))),
    claim_C8.2 (Xml.elem "HEADER" [] none []) (Xml.elem "CATALOG" [] none [])⟩

/-- Claim C9: the pruner's emptiness test holds exactly for absent values,
empty strings, empty lists and empty dicts; a boolean (in particular
`false`) and a number (in particular `0`) are never empty and survive
pruning both as list items and as dict entry values. -/
theorem claim_C9 :
    (∀ t : Json, jsonEmpty t = true ↔
      (t = .null ∨ t = .str "" ∨ t = .arr [] ∨ t = .obj [])) ∧
    (∀ b, jsonEmpty (Json.bool b) = false) ∧
    (∀ q, jsonEmpty (Json.num q) = false) ∧
    (∀ (xs : List Json) (b : Bool), Json.bool b ∈ xs → Json.bool b ∈ cleanItems xs) ∧
    (∀ (xs : List Json) (q : ℚ), Json.num q ∈ xs → Json.num q ∈ cleanItems xs) ∧
    (∀ (es : List (String × Json)) (k : String) (b : Bool),
      (k, Json.bool b) ∈ es → (k, Json.bool b) ∈ cleanEntries es) ∧
    (∀ (es : List (String × Json)) (k : String) (q : ℚ),
      (k, Json.num q) ∈ es → (k, Json.num q) ∈ cleanEntries es) := by
  refine ⟨?_, fun b => rfl, fun q => rfl, ?_, ?_, ?_, ?_⟩
  · intro t
    cases t <;> simp [jsonEmpty, List.isEmpty_iff]
  · intro xs b h
    have hc : clean_json (Json.bool b) = Json.bool b := by simp [clean_json]
    have hm := cleanItems_mem_of xs (Json.bool b) h (by rw [hc]; rfl)
    rwa [hc] at hm
  · intro xs q h
    have hc : clean_json (Json.num q) = Json.num q := by simp [clean_json]
    have hm := cleanItems_mem_of xs (Json.num q) h (by rw [hc]; rfl)
    rwa [hc] at hm
  · intro es k b h
    have hc : clean_json (Json.bool b) = Json.bool b := by simp [clean_json]
    have hm := cleanEntries_mem_of es k (Json.bool b) h (by rw [hc]; rfl)
    rwa [hc] at hm
  · intro es k q h
    have hc : clean_json (Json.num q) = Json.num q := by simp [clean_json]
    have hm := cleanEntries_mem_of es k (Json.num q) h (by rw [hc]; rfl)
    rwa [hc] at hm

/-- Claim C9, witness: `false` survives pruning of a list, `0` survives
pruning of a dict, each sitting next to values that are pruned away. -/
theorem claim_C9_witness :
    Json.bool false ∈ [Json.null, Json.bool false] ∧
    Json.bool false ∈ cleanItems [Json.null, Json.bool false] ∧
    ("k", Json.num 0) ∈ [("a", Json.str ""), ("k", Json.num 0)] ∧
    ("k", Json.num 0) ∈ cleanEntries [("a", Json.str ""), ("k", Json.num 0)] :=
  ⟨by simp,
    claim_C9.2.2.2.1 [Json.null, Json.bool false] false (by simp),
    by simp,
    claim_C9.2.2.2.2.2.2 [("a", Json.str ""), ("k", Json.num 0)] "k" 0 (by simp)⟩

/-- Claim C10: the assembled (pre-pruning) document has exactly one
supplier — the one built from the header — and the product loop appends
every assembled product record to that supplier's `Product` list in catalog
source order. -/
theorem claim_C10 :
    ∀ (A P : Type) (HEADER : Xml) (atts : List A)
      (catalogProducts : List Xml) (assembleProduct : Xml → P),
      assembleSupplierList HEADER atts catalogProducts assembleProduct =
        [{ initSupplier A P HEADER atts with
            Product := catalogProducts.map assembleProduct }] := by
  intro A P HEADER atts ps f
  unfold assembleSupplierList
  rw [foldl_appendProductFirst]
  simp [initSupplier]

end Converter
